import Mathlib

/-!
Verification development for the merge_fastq pipeline.

The definitions below are a shallow embedding of the validation and
planning logic of the pipeline's core modules:

* `rename_samples.py` (RenameSamples.__populate_df),
* `samplemap.py` (Samplemap.__type_samplemap_format,
  Samplemap.__smap_mid_2024_to_df read-end extraction,
  Samplemap.__eval_cross_batch_sample_ids,
  Samplemap.__eval_compare_sample_ids),
* `merge_fastq.py` (MergeFastq.__parse_fastq_copy_types,
  MergeFastq.__setup_merge_cmds ordering check,
  MergeFastq.__update_df_read_counts),
* `read_counts_gtac.py` (ReadCountsGtac.calc_gtac_read_coverage),
* `read_counts_source.py` (ReadCountsSource.__calc_src_read_coverage,
  ReadCountsSource.__compare_gtac_to_src_counts).

Dataframes are modelled as lists of records, Python exceptions as
`Except String` results carrying the exception's message string, and
Python sets/dicts as deduplicated lists / association lists.  Numeric
pandas columns hold machine integers, modelled as `Nat`; the one
float computation (percent-of-target, rounded to two decimals) is
modelled exactly, representing a two-decimal percent value by its
integer number of hundredths.
-/

namespace Mergefastq

/-! ## Generic list and string helpers -/

/-- Lexicographic strict order on character lists, by code point. -/
def charListLt : List Char → List Char → Bool
  | [], [] => false
  | [], _ :: _ => true
  | _ :: _, [] => false
  | a :: as, b :: bs =>
    if a.val < b.val then true
    else if b.val < a.val then false
    else charListLt as bs

/-- Strict order on strings by code point, as Python compares strings. -/
def strLt (a b : String) : Bool := charListLt a.toList b.toList

/-- Insert an element into a list sorted by the boolean relation `le`. -/
def orderedInsertB {α : Type} (le : α → α → Bool) (x : α) : List α → List α
  | [] => [x]
  | y :: ys => if le x y then x :: y :: ys else y :: orderedInsertB le x ys

/-- Insertion sort by the boolean relation `le`.  This models an
ascending `DataFrame.sort_values`; none of the properties proved below
depends on the order of tied rows. -/
def insertionSortB {α : Type} (le : α → α → Bool) : List α → List α
  | [] => []
  | x :: xs => orderedInsertB le x (insertionSortB le xs)

/-! ## RenameSamples (rename_samples.py) -/

/-- One row of the tab-delimited --rename file, after the column-header
check of `RenameSamples.__populate_df` (rename_samples.py:110-115) has
accepted the three-column layout. -/
structure RenameRow where
  samplemap_sample_id : String
  revised_sample_id : String
  comments : String
deriving DecidableEq, Repr

/-- Row-content validation of `RenameSamples.__populate_df`
(rename_samples.py:117-150): reject an empty table, reject duplicate
values in either id column (Python compares the column length with the
size of the column's value set), then re-check one-to-one-ness by
grouping on each id column in turn. -/
def populate_df (rows : List RenameRow) : Except String (List RenameRow) :=
  if rows.length = 0 then
    .error "Input file contains no values."
  else if ¬ (rows.map (·.samplemap_sample_id)).length
      = ((rows.map (·.samplemap_sample_id)).dedup).length then
    .error "The samplemap_sample_id column values are not unique."
  else if ¬ (rows.map (·.revised_sample_id)).length
      = ((rows.map (·.revised_sample_id)).dedup).length then
    .error "The revised_sample_id column values are not unique."
  else if ((rows.map (·.samplemap_sample_id)).dedup).any
      (fun k => decide (1 < (rows.filter
        (fun r => r.samplemap_sample_id = k)).length)) then
    .error "Samplemap to revised id is not one-to-one."
  else if ((rows.map (·.revised_sample_id)).dedup).any
      (fun k => decide (1 < (rows.filter
        (fun r => r.revised_sample_id = k)).length)) then
    .error "Samplemap to revised id is not one-to-one."
  else
    .ok rows

/-! ## Samplemap (samplemap.py) -/

/-- Split a character list on the path separator. -/
def split_slash : List Char → List (List Char)
  | [] => [[]]
  | c :: rest =>
    let acc := split_slash rest
    if c = '/' then [] :: acc
    else (c :: acc.headD []) :: acc.tail

/-- Final component of a path: Python's `Path(smap).stem +
Path(smap).suffix` (samplemap.py:87) equals the name of the last path
component.  Empty components (from repeated or trailing slashes) are
dropped, as `pathlib` normalises them away. -/
def file_base_name (p : String) : String :=
  String.mk (((split_slash p.toList).filter (fun s => ¬ s = [])).getLastD [])

/-- Column set of the one recognised Samplemap schema
(samplemap.py:100-106). -/
def smap_mid_2024_format : List String :=
  ["FASTQ", "Flowcell ID", "Index Sequence", "Flowcell Lane", "ESP ID",
   "Pool Name", "Species", "Illumina Sample Type", "Library Type",
   "Library Name", "Date Complete", "Total Reads", "Total Bases",
   "PhiX Error Rate", "% Pass Filter Clusters", "% >Q30", "Avg Q Score"]

/-- `Samplemap.__type_samplemap_format` (samplemap.py:87-115): the base
file name is checked against the literal `Samplemap.csv` before the
file is read; only then is the column set compared (order-independent,
hence as sets) with the recognised schema. -/
def type_samplemap_format (smap : String) (cols : List String) :
    Except String String :=
  if ¬ file_base_name smap = "Samplemap.csv" then
    .error "File name does not match Samplemap.csv format."
  else if cols.toFinset = smap_mid_2024_format.toFinset then
    .ok "smap_mid_2024_format"
  else
    .error "Unknown samplemap format type encountered."

/-- Match of the regular expression `_R[12]_` with `re.IGNORECASE` at
the head of a character list: an underscore, `R` or `r`, `1` or `2`,
an underscore.  Returns the matched text, as `re.Match.group()` does. -/
def tag_match_at : List Char → Option (List Char)
  | '_' :: c :: d :: '_' :: _ =>
    if (c = 'R' ∨ c = 'r') ∧ (d = '1' ∨ d = '2') then some ['_', c, d, '_']
    else none
  | _ => none

/-- Leftmost match of `_R[12]_` (case-insensitive) in a character list,
modelling `re.search('_R[12]_', fastq, re.IGNORECASE)`
(samplemap.py:224). -/
def re_search_read_num_tag : List Char → Option (List Char)
  | [] => none
  | c :: rest =>
    match tag_match_at (c :: rest) with
    | some m => some m
    | none => re_search_read_num_tag rest

/-- Read-end extraction of `Samplemap.__smap_mid_2024_to_df`
(samplemap.py:224-240): search the FASTQ file name for the
case-insensitive tag, then `match` the matched text against the two
uppercase literals `_R1_` and `_R2_`; any other matched text raises,
as does the absence of a match. -/
def parse_read_number (fastq : String) : Except String Nat :=
  match re_search_read_num_tag fastq.toList with
  | some m =>
    if m = ['_', 'R', '1', '_'] then .ok 1
    else if m = ['_', 'R', '2', '_'] then .ok 2
    else .error "Read-pair number tag is not R1 or R2."
  | none => .error "Read-pair number tag is None."

/-- One row of the canonical concatenated read-record table
(`Samplemap.df_smaps` after `__add_rename_ids_to_df`, the dataframe the
MergeFastq class consumes).  Only the columns that the embedded
routines read are carried. -/
structure SmapRow where
  fastq : String
  flow_cell_id : String
  index_sequence : String
  lane_number : Nat
  read_number : Nat
  sample_name : String
  revised_sample_name : String
  gtac_fastq_reads : Nat
  batch_id : Nat
deriving DecidableEq, Repr

/-- Distinct batch ids among the rows of one sample, modelling
`set(df_sample['batch_id'])` (samplemap.py:358). -/
def batch_set (rows : List SmapRow) (s : String) : List Nat :=
  ((rows.filter (fun r => r.sample_name = s)).map (·.batch_id)).dedup

/-- `Samplemap.__eval_cross_batch_sample_ids` (samplemap.py:341-366):
for every distinct sample id of the concatenated table, raise when the
sample's rows span more than one batch id.  Python iterates the ids as
a set, in an unspecified order; whether an error is raised does not
depend on the order, so iteration is modelled in first-occurrence
order. -/
def eval_cross_batch_sample_ids (rows : List SmapRow) : Except String Unit :=
  match ((rows.map (·.sample_name)).dedup).find?
      (fun s => decide (1 < (batch_set rows s).length)) with
  | some _ => .error "Sample exists across multiple batches."
  | none => .ok ()

/-- `Samplemap.__eval_compare_sample_ids` (samplemap.py:419-438): the
set of sample ids of the concatenated table must equal the set of
original ids of the rename map; any difference, in either direction,
raises. -/
def eval_compare_sample_ids (smap_ids rename_ids : List String) :
    Except String Unit :=
  if ¬ smap_ids.toFinset = rename_ids.toFinset then
    .error "Sample ids for Samplemap and RenameSamples classes do not match."
  else
    .ok ()

/-! ## MergeFastq (merge_fastq.py) -/

/-- Number of distinct flow cells among one sample's rows
(merge_fastq.py:182). -/
def flow_cell_count (rows : List SmapRow) (s : String) : Nat :=
  (((rows.filter (fun r => r.sample_name = s)).map (·.flow_cell_id)).dedup).length

/-- Number of rows of one sample (merge_fastq.py:183). -/
def record_count (rows : List SmapRow) (s : String) : Nat :=
  (rows.filter (fun r => r.sample_name = s)).length

/-- `MergeFastq.__parse_fastq_copy_types` (merge_fastq.py:152-194):
group the table by sample name; a sample with exactly one flow cell and
exactly two rows is a copy ("passthrough") sample, any other sample is
a merge ("consolidate") sample.  The loop counter `i` ends at the
number of groups and the two set sizes are checked to sum to it.  On an
empty table Python's `i` is never bound and the final read of it raises
`NameError`. -/
def parse_fastq_copy_types (rows : List SmapRow) :
    Except String (List String × List String) :=
  match (rows.map (·.sample_name)).dedup with
  | [] => .error "NameError: i is not defined"
  | n :: ns =>
    let names := n :: ns
    let single_copy_ids := names.filter
      (fun s => decide (flow_cell_count rows s = 1 ∧ record_count rows s = 2))
    let merge_copy_ids := names.filter
      (fun s => ! decide (flow_cell_count rows s = 1 ∧ record_count rows s = 2))
    if ¬ single_copy_ids.length + merge_copy_ids.length = names.length then
      .error "FASTQ copy type counts differ."
    else
      .ok (single_copy_ids, merge_copy_ids)

/-- Ascending comparison on the sort keys of
`sort_values(['flow_cell_id', 'lane_number'])` (merge_fastq.py:449-455). -/
def fc_lane_le (a b : SmapRow) : Bool :=
  strLt a.flow_cell_id b.flow_cell_id ||
    (a.flow_cell_id = b.flow_cell_id && a.lane_number ≤ b.lane_number)

/-- Python's `list(df)` applied to a DataFrame: iterating a DataFrame
enumerates its COLUMN LABELS, not its rows.  merge_fastq.py:457-458
applies `list(...)` to the two-column frames
`df_read_num_1[['flow_cell_id', 'lane_number']]` and
`df_read_num_2[[...]]`, so each produces the label list below,
whatever the rows hold. -/
def pd_frame_to_list (cols : List String) : List String := cols

/-- Sort-key sequence of one read end of a merge group: the group's
rows of that read end, sorted ascending by flow cell and lane, each
projected to its `(flow_cell_id, lane_number)` pair.  This is the
quantity the ordering invariant of the specification speaks about. -/
def sorted_fc_lane_keys (recs : List SmapRow) (rn : Nat) : List (String × Nat) :=
  (insertionSortB fc_lane_le (recs.filter (fun r => r.read_number = rn))).map
    (fun r => (r.flow_cell_id, r.lane_number))

/-- Validation region of `MergeFastq.__setup_merge_cmds` for one
merge-type sample group (merge_fastq.py:440-464): the group must carry
a single index sequence; the rows are split by read end (missing read
end groups would raise `KeyError` at `get_group`); each read end is
sorted by flow cell and lane; and the two frames' sort orders are
compared -- via `list(...)` of the two-column frames, which yields
column labels (see `pd_frame_to_list`).  Returns the two sorted read
end groups that the command construction then walks. -/
def setup_merge_sort_check (recs : List SmapRow) :
    Except String (List SmapRow × List SmapRow) :=
  if ¬ ((recs.map (·.index_sequence)).dedup).length = 1 then
    .error "Merge-samples should all have the same index sequence."
  else if (recs.filter (fun r => r.read_number = 1)) = [] then
    .error "KeyError: read_number 1"
  else if (recs.filter (fun r => r.read_number = 2)) = [] then
    .error "KeyError: read_number 2"
  else
    let df_read_num_1 :=
      insertionSortB fc_lane_le (recs.filter (fun r => r.read_number = 1))
    let df_read_num_2 :=
      insertionSortB fc_lane_le (recs.filter (fun r => r.read_number = 2))
    let sort_order_1 := pd_frame_to_list ["flow_cell_id", "lane_number"]
    let sort_order_2 := pd_frame_to_list ["flow_cell_id", "lane_number"]
    if ¬ sort_order_1 = sort_order_2 then
      .error "Merge-samples sort order was not maintained."
    else
      .ok (df_read_num_1, df_read_num_2)

/-- Ascending order on the `(sample_name, read_number)` group keys of
`df.groupby(['sample_name', 'read_number'])`, whose groups pandas
iterates in sorted key order. -/
def sn_rn_le (a b : String × Nat) : Bool :=
  strLt a.1 b.1 || (a.1 = b.1 && a.2 ≤ b.2)

/-- The distinct `(sample_name, read_number)` keys of the table in
pandas groupby iteration order (sorted ascending). -/
def group_keys_sorted (rows : List SmapRow) : List (String × Nat) :=
  insertionSortB sn_rn_le ((rows.map (fun r => (r.sample_name, r.read_number))).dedup)

/-- Sum of the provider-reported per-FASTQ read counts over one
`(sample_name, read_number)` group, modelling
`dfi.sum()['gtac_fastq_reads']` (merge_fastq.py:1007). -/
def group_sum (rows : List SmapRow) (k : String × Nat) : Nat :=
  (((rows.filter (fun r => r.sample_name = k.1 ∧ r.read_number = k.2)).map
    (·.gtac_fastq_reads)).sum)

/-- Overwriting insert into an association list, modelling assignment
to a Python dict key. -/
def dict_insert (ix : List (String × Nat)) (k : String) (v : Nat) :
    List (String × Nat) :=
  (ix.filter (fun p => ¬ p.1 = k)) ++ [(k, v)]

/-- The `count_index` dict of `MergeFastq.__update_df_read_counts`
(merge_fastq.py:1001-1008): walking the `(sample_name, read_number)`
groups in their sorted iteration order, each group stores its summed
provider count under the key `sample_name` ALONE, so for a sample with
both read ends the read-2 group's sum overwrites the read-1 group's
sum. -/
def count_index (rows : List SmapRow) : List (String × Nat) :=
  (group_keys_sorted rows).foldl
    (fun ix k => dict_insert ix k.1 (group_sum rows k)) []

/-- Per-revised-sample validation loop of
`MergeFastq.__update_df_read_counts` (merge_fastq.py:1032-1054) for one
revised sample name: split the sample's annotated rows by read end
(`get_group` raises `KeyError` on a missing end), pick the first
distinct end-pair and sample count of each end (`list(set(...))[0]`;
the groups are nonempty so the 0 default below is never read), and
raise when the two ends disagree. -/
def check_sample_counts (rcs : List (SmapRow × Nat × Nat)) (name : String) :
    Except String Unit :=
  let dfi := rcs.filter (fun x => x.1.revised_sample_name = name)
  let dfg_r1 := dfi.filter (fun x => x.1.read_number = 1)
  let dfg_r2 := dfi.filter (fun x => x.1.read_number = 2)
  if dfg_r1 = [] then .error "KeyError: read_number 1"
  else if dfg_r2 = [] then .error "KeyError: read_number 2"
  else
    let r1_sample_counts : Nat := ((dfg_r1.map (fun x => x.2.2)).dedup).headD 0
    let r1_ep_counts : Nat := ((dfg_r1.map (fun x => x.2.1)).dedup).headD 0
    let r2_sample_counts : Nat := ((dfg_r2.map (fun x => x.2.2)).dedup).headD 0
    let r2_ep_counts : Nat := ((dfg_r2.map (fun x => x.2.1)).dedup).headD 0
    if ¬ r1_sample_counts = r2_sample_counts then
      .error "GTAC sample counts do not match for R1 & R2."
    else if ¬ r1_ep_counts = r2_ep_counts then
      .error "GTAC end pair counts do not match for R1 & R2."
    else
      .ok ()

/-- Run `check_sample_counts` over a list of revised sample names,
stopping at the first raised error, as the Python loop does. -/
def check_all_sample_counts (rcs : List (SmapRow × Nat × Nat)) :
    List String → Except String Unit
  | [] => .ok ()
  | n :: ns =>
    match check_sample_counts rcs n with
    | .error e => .error e
    | .ok () => check_all_sample_counts rcs ns

/-- `MergeFastq.__update_df_read_counts` (merge_fastq.py:966-1055):
build `count_index` (see above), then give every row of the table the
end-pair count looked up under its sample name (a missing key would
raise `KeyError`) and a sample count of twice that value, check the new
columns' lengths against the table, append them as
`gtac_end_pair_reads` and `gtac_sample_reads` (the `Nat × Nat` attached
to each row), and finally run the per-revised-sample R1/R2 agreement
checks. -/
def update_df_read_counts (rows : List SmapRow) :
    Except String (List (SmapRow × Nat × Nat)) := do
  let ix := count_index rows
  let rcs ← rows.mapM (fun r =>
    match ix.lookup r.sample_name with
    | some merged_reads => Except.ok (r, merged_reads, merged_reads * 2)
    | none => Except.error "KeyError: sample_name")
  if ¬ (rcs.map (fun x => x.2.1)).length = rows.length then
    Except.error "End pair counts column length does not match dataframe."
  else if ¬ (rcs.map (fun x => x.2.2)).length = rows.length then
    Except.error "Sample counts column length does not match dataframe."
  else do
    check_all_sample_counts rcs ((rcs.map (fun x => x.1.revised_sample_name)).dedup)
    return rcs

/-! ## Read-count graders (read_counts_gtac.py, read_counts_source.py) -/

/-- The fixed ascending ladder of target read counts
(read_counts_gtac.py:154-174 and read_counts_source.py:136-156). -/
def target_counts : List Nat :=
  [100000, 200000, 300000, 400000, 500000,
   1000000, 1500000, 2000000, 2500000, 3000000,
   3500000, 4000000, 4500000, 5000000,
   10000000, 20000000, 30000000, 40000000, 50000000]

/-- Round the nonnegative fraction `a / b` to the nearest integer,
ties to even, as Python's builtin `round` does. -/
def bankers_round (a b : Nat) : Nat :=
  let q := a / b
  let r := a % b
  if 2 * r < b then q
  else if b < 2 * r then q + 1
  else if q % 2 = 0 then q else q + 1

/-- Python's `round(num / den, 2)` for nonnegative integers, returned
as an exact integer count of hundredths (the rounded value times 100). -/
def round2_hundredths (num den : Nat) : Nat := bankers_round (num * 100) den

/-- Inner target loop of `ReadCountsGtac.calc_gtac_read_coverage`
(read_counts_gtac.py:240-252): for each target of the ladder compute
`perct_of_target = round((sample_counts / target_counts) * 100, 2)` --
held here in hundredths, so `(sample_counts / t) * 100` rounded to two
decimals is `round2_hundredths (sample_counts * 100) t` -- and a pass
flag that is False exactly when the percent is below the minimum
(`target_min_perct`, default 80, likewise scaled to hundredths for the
comparison). -/
def gtac_target_cols (sample_counts target_min_perct : Nat) :
    List (Nat × Nat × Bool) :=
  target_counts.map (fun t =>
    let perct_of_target := round2_hundredths (sample_counts * 100) t
    (t, perct_of_target,
      if perct_of_target < target_min_perct * 100 then false else true))

/-- Inner target loop of `ReadCountsSource.__calc_src_read_coverage`
(read_counts_source.py:396-408): identical to the GTAC grader except
that the documented formula is
`perct = round(((sample_counts / 2) / target_counts) * 100, 2)`;
exactly, `((s / 2) / t) * 100 = (s * 100) / (2 * t)`. -/
def src_target_cols (sample_counts target_min_perct : Nat) :
    List (Nat × Nat × Bool) :=
  target_counts.map (fun t =>
    let perct_of_target := round2_hundredths (sample_counts * 100) (2 * t)
    (t, perct_of_target,
      if perct_of_target < target_min_perct * 100 then false else true))

/-- Rounding of a nonnegative rational to the nearest integer, ties to
even (the specification-level description of Python's `round`). -/
def rat_rint (x : ℚ) : ℤ :=
  if Int.fract x < 1 / 2 then ⌊x⌋
  else if 1 / 2 < Int.fract x then ⌊x⌋ + 1
  else if ⌊x⌋ % 2 = 0 then ⌊x⌋ else ⌊x⌋ + 1

/-- Rounding of a nonnegative rational to two decimal places, ties to
even: the specification-level `round(x, 2)`. -/
def rat_round2 (x : ℚ) : ℚ := (rat_rint (x * 100) : ℚ) / 100

/-! ## Count comparison report (read_counts_source.py) -/

/-- One row of a throughput-grade table (`gtac_read_counts.tsv` or
`src_read_counts.tsv`) as consumed by the comparison step; only the
columns the comparison reads are carried. -/
structure CountsRow where
  sample_name : String
  R1_read_counts : Nat
  R2_read_counts : Nat
  sample_read_counts : Nat
deriving DecidableEq, Repr

/-- One row of the comparison report
(`ReadCountsSource.__compare_gtac_to_src_counts` REPORT FIELDS):
`none` models a blank/NaN field, `some "a:b"` a difference marker. -/
structure CompRow where
  sample_name : String
  R1_read_counts : Option String
  R2_read_counts : Option String
  sample_read_counts : Option String
  is_no_difference : Bool
deriving DecidableEq, Repr

/-- A difference marker, Python's f-string `f'{gtac_counts}:{src_counts}'`
over the two integer counts. -/
def fmt_pair (gtac_counts src_counts : Nat) : String :=
  toString gtac_counts ++ ":" ++ toString src_counts

/-- The `col_r1_read_counts` column (read_counts_source.py:613-619):
a marker when the two R1 counts differ, blank when they agree. -/
def col_r1_read_counts (pairs : List (CountsRow × CountsRow)) :
    List (Option String) :=
  pairs.map (fun p =>
    if ¬ p.1.R1_read_counts = p.2.R1_read_counts then
      some (fmt_pair p.1.R1_read_counts p.2.R1_read_counts)
    else none)

/-- The `col_r2_read_counts` column (read_counts_source.py:620-626). -/
def col_r2_read_counts (pairs : List (CountsRow × CountsRow)) :
    List (Option String) :=
  pairs.map (fun p =>
    if ¬ p.1.R2_read_counts = p.2.R2_read_counts then
      some (fmt_pair p.1.R2_read_counts p.2.R2_read_counts)
    else none)

/-- The `col_sample_read_counts` column (read_counts_source.py:627-633).
The source's blank branch is `elif is_r2_same is True` -- it tests the
R2 comparison, not the sample-count comparison -- so a row whose sample
counts agree while its R2 counts differ appends NOTHING to this
column. -/
def col_sample_read_counts (pairs : List (CountsRow × CountsRow)) :
    List (Option String) :=
  pairs.foldr (fun p acc =>
    if ¬ p.1.sample_read_counts = p.2.sample_read_counts then
      some (fmt_pair p.1.sample_read_counts p.2.sample_read_counts) :: acc
    else if p.1.R2_read_counts = p.2.R2_read_counts then
      none :: acc
    else acc) []

/-- The `col_bool` column (read_counts_source.py:640-648): per row, the
conjunction of the three field-equality booleans. -/
def col_is_no_difference (pairs : List (CountsRow × CountsRow)) : List Bool :=
  pairs.map (fun p =>
    decide (p.1.R1_read_counts = p.2.R1_read_counts) &&
    decide (p.1.R2_read_counts = p.2.R2_read_counts) &&
    decide (p.1.sample_read_counts = p.2.sample_read_counts))

/-- Zip the five report columns back into rows. -/
def mk_comp_rows : List String → List (Option String) → List (Option String) →
    List (Option String) → List Bool → List CompRow
  | n :: ns, a :: as, b :: bs, c :: cs, d :: ds =>
    ⟨n, a, b, c, d⟩ :: mk_comp_rows ns as bs cs ds
  | _, _, _, _, _ => []

/-- `ReadCountsSource.__compare_gtac_to_src_counts`
(read_counts_source.py:561-660) over row-aligned GTAC and source count
tables: build the four per-sample columns and the `is_no_difference`
column, abort when the columns' lengths disagree (in Python the
mismatched-length DataFrame column assignment at line 638 already
raises before the explicit length check at line 650; both aborts are
modelled by the explicit check's error), else return the report. -/
def compare_gtac_to_src_counts (pairs : List (CountsRow × CountsRow)) :
    Except String (List CompRow) :=
  let col_sample_names := pairs.map (fun p => p.1.sample_name)
  let c1 := col_r1_read_counts pairs
  let c2 := col_r2_read_counts pairs
  let cs := col_sample_read_counts pairs
  let cb := col_is_no_difference pairs
  if ¬ (col_sample_names.length = c1.length ∧ c1.length = c2.length ∧
      c2.length = cs.length ∧ cs.length = cb.length) then
    .error "Read count columns vary in length."
  else
    .ok (mk_comp_rows col_sample_names c1 c2 cs cb)

/-- The comparison-report row the specification describes: each count
field holds the provider:source marker exactly when the two tables
disagree on that field and is blank when they agree, and
`is_no_difference` holds exactly when all three fields agree.  Stated
from the specification's words, for comparison with
`compare_gtac_to_src_counts`. -/
def spec_comp_row (p : CountsRow × CountsRow) : CompRow :=
  { sample_name := p.1.sample_name
    R1_read_counts :=
      if p.1.R1_read_counts = p.2.R1_read_counts then none
      else some (fmt_pair p.1.R1_read_counts p.2.R1_read_counts)
    R2_read_counts :=
      if p.1.R2_read_counts = p.2.R2_read_counts then none
      else some (fmt_pair p.1.R2_read_counts p.2.R2_read_counts)
    sample_read_counts :=
      if p.1.sample_read_counts = p.2.sample_read_counts then none
      else some (fmt_pair p.1.sample_read_counts p.2.sample_read_counts)
    is_no_difference :=
      decide (p.1.R1_read_counts = p.2.R1_read_counts) &&
      decide (p.1.R2_read_counts = p.2.R2_read_counts) &&
      decide (p.1.sample_read_counts = p.2.sample_read_counts) }

/-! ## Concrete instances used by the claim theorems and witnesses -/

/-- A merge-group R1 row on flow cell FCA, lane 1. -/
def mg_row_r1_a : SmapRow :=
  ⟨"s1_FCA_L001_R1.fastq.gz", "FCA", "ACGT", 1, 1, "s1", "S1", 100, 1⟩

/-- A merge-group R1 row on flow cell FCB, lane 2. -/
def mg_row_r1_b : SmapRow :=
  ⟨"s1_FCB_L002_R1.fastq.gz", "FCB", "ACGT", 2, 1, "s1", "S1", 100, 1⟩

/-- A merge-group R2 row on flow cell FCA, lane 1. -/
def mg_row_r2_a : SmapRow :=
  ⟨"s1_FCA_L001_R2.fastq.gz", "FCA", "ACGT", 1, 2, "s1", "S1", 100, 1⟩

/-- A merge-group R2 row on flow cell FCC, lane 3: its R2 key sequence
cannot match R1's, which lives on FCA and FCB. -/
def mg_row_r2_c : SmapRow :=
  ⟨"s1_FCC_L003_R2.fastq.gz", "FCC", "ACGT", 3, 2, "s1", "S1", 100, 1⟩

/-- A Consolidate sample group whose sorted R1 keys
`[(FCA, 1), (FCB, 2)]` differ from its sorted R2 keys
`[(FCA, 1), (FCC, 3)]`. -/
def mg_group : List SmapRow := [mg_row_r1_a, mg_row_r1_b, mg_row_r2_a, mg_row_r2_c]

/-- An R1 row whose provider read count is 100. -/
def cnt_row_r1 : SmapRow :=
  ⟨"s1_FCA_L001_R1.fastq.gz", "FCA", "ACGT", 1, 1, "s1", "S1", 100, 1⟩

/-- The matching R2 row, with provider read count 200: the R1 sum (100)
and R2 sum (200) of sample s1 disagree. -/
def cnt_row_r2 : SmapRow :=
  ⟨"s1_FCA_L001_R2.fastq.gz", "FCA", "ACGT", 1, 2, "s1", "S1", 200, 1⟩

/-- A pair of count-table rows that agree on the sample-level count
(10 = 10) while disagreeing on R2 (7 versus 8). -/
def pair_sample_eq_r2_ne : CountsRow × CountsRow :=
  (⟨"S1", 5, 7, 10⟩, ⟨"S1", 5, 8, 10⟩)

/-- Scenario D of the specification: provider-reported sample count
1,000,000 against a recount of 998,000. -/
def pair_scenario_d : CountsRow × CountsRow :=
  (⟨"S1", 500000, 500000, 1000000⟩, ⟨"S1", 499000, 499000, 998000⟩)

/-- A rename table whose original-id column holds one duplicated value
(Scenario C of the specification). -/
def rename_dup_rows : List RenameRow :=
  [⟨"H141_1_1", "H141_A", "first"⟩, ⟨"H141_1_1", "H141_B", "second"⟩]

/-! ## Supporting lemmas -/

/-- All members of a list of length at most one coincide. -/
theorem list_eq_of_length_le_one {α : Type} {l : List α} (h : l.length ≤ 1)
    {a b : α} (ha : a ∈ l) (hb : b ∈ l) : a = b := by
  match l with
  | [] => cases ha
  | [x] =>
    rw [List.mem_singleton] at ha hb
    rw [ha, hb]
  | x :: y :: t => simp at h

/-- A duplicate-free list of length above one holds two distinct
members. -/
theorem exists_ne_of_one_lt_length_nodup {α : Type} {l : List α}
    (hn : l.Nodup) (h : 1 < l.length) : ∃ a ∈ l, ∃ b ∈ l, a ≠ b := by
  match l with
  | [] => simp at h
  | [x] => simp at h
  | x :: y :: t =>
    refine ⟨x, by simp, y, by simp, fun hxy => ?_⟩
    exact (List.nodup_cons.mp hn).1 (hxy ▸ List.mem_cons_self y t)

/-- Deduplication preserves the length exactly of duplicate-free
lists. -/
theorem dedup_length_eq_iff {α : Type} [DecidableEq α] {l : List α} :
    l.dedup.length = l.length ↔ l.Nodup := by
  constructor
  · intro hlen
    have hd := List.Sublist.eq_of_length (List.dedup_sublist l) hlen
    rw [← hd]
    exact List.nodup_dedup l
  · intro hn
    rw [hn.dedup]

/-- When a projection is duplicate-free over a list, at most one
element of the list projects to any given value. -/
theorem length_filter_le_one_of_nodup_map {α β : Type} [DecidableEq β]
    (f : α → β) {l : List α} (h : (l.map f).Nodup) (k : β) :
    (l.filter (fun r => decide (f r = k))).length ≤ 1 := by
  induction l with
  | nil => simp
  | cons a t ih =>
    rw [List.map_cons, List.nodup_cons] at h
    by_cases hk : f a = k
    · have hempty : t.filter (fun r => decide (f r = k)) = [] := by
        rw [List.filter_eq_nil_iff]
        intro r hr hfr
        exact h.1 (hk ▸ of_decide_eq_true hfr ▸ List.mem_map_of_mem f hr)
      simp [List.filter_cons, hk, hempty]
    · simp only [List.filter_cons, decide_eq_true_eq, hk, if_false]
      exact ih h.2

/-- On pairs whose R2 counts agree whenever their sample counts agree,
the sample-count comparison column gains exactly one entry per row,
blank on agreement and a marker on disagreement. -/
theorem col_sample_read_counts_eq_map (pairs : List (CountsRow × CountsRow))
    (h : ∀ p ∈ pairs, p.1.sample_read_counts = p.2.sample_read_counts →
      p.1.R2_read_counts = p.2.R2_read_counts) :
    col_sample_read_counts pairs = pairs.map (fun p =>
      if p.1.sample_read_counts = p.2.sample_read_counts then none
      else some (fmt_pair p.1.sample_read_counts p.2.sample_read_counts)) := by
  induction pairs with
  | nil => rfl
  | cons p ps ih =>
    have hp := h p (List.mem_cons_self p ps)
    have hrest := fun q hq => h q (List.mem_cons_of_mem p hq)
    unfold col_sample_read_counts
    rw [List.foldr_cons, List.map_cons]
    by_cases hs : p.1.sample_read_counts = p.2.sample_read_counts
    · rw [if_neg (not_not.mpr hs), if_pos (hp hs), if_pos hs]
      exact congrArg _ (ih hrest)
    · rw [if_pos hs, if_neg hs]
      exact congrArg _ (ih hrest)

/-- Zipping five mapped columns of one list back into rows is a map. -/
theorem mk_comp_rows_map {α : Type} (l : List α) (n : α → String)
    (f1 f2 f3 : α → Option String) (f4 : α → Bool) :
    mk_comp_rows (l.map n) (l.map f1) (l.map f2) (l.map f3) (l.map f4) =
      l.map (fun x => ⟨n x, f1 x, f2 x, f3 x, f4 x⟩) := by
  induction l with
  | nil => rfl
  | cons x xs ih => simp [mk_comp_rows, ih]

/-- Rational floor of a quotient of naturals is natural division. -/
theorem floor_nat_div_q (a b : Nat) (hb : 0 < b) :
    ⌊(a : ℚ) / (b : ℚ)⌋ = ((a / b : Nat) : ℤ) := by
  have hb0 : (0 : ℚ) < b := by exact_mod_cast hb
  refine Int.floor_eq_iff.mpr ⟨?_, ?_⟩
  · rw [le_div_iff₀ hb0]
    push_cast
    exact_mod_cast Nat.div_mul_le_self a b
  · rw [div_lt_iff₀ hb0]
    have hq := Nat.div_add_mod a b
    have hr := Nat.mod_lt a hb
    have hlt : a < (a / b + 1) * b := by
      calc a = b * (a / b) + a % b := hq.symm
        _ < b * (a / b) + b := by omega
        _ = (a / b + 1) * b := by ring
    push_cast
    exact_mod_cast hlt

/-- Fractional part of a quotient of naturals is the remainder over the
divisor. -/
theorem fract_nat_div_q (a b : Nat) (hb : 0 < b) :
    Int.fract ((a : ℚ) / b) = ((a % b : Nat) : ℚ) / b := by
  have hb0 : (0 : ℚ) < b := by exact_mod_cast hb
  rw [Int.fract, floor_nat_div_q a b hb]
  have hq := Nat.div_add_mod a b
  have hcast : (b : ℚ) * ((a / b : Nat) : ℚ) + ((a % b : Nat) : ℚ) = (a : ℚ) := by
    exact_mod_cast congrArg (fun n : Nat => (n : ℚ)) hq
  rw [Int.cast_natCast]
  field_simp
  linarith

/-- The natural-number tie-to-even rounding agrees with its
rational-number description. -/
theorem bankers_round_eq_rat_rint (a b : Nat) (hb : 0 < b) :
    (bankers_round a b : ℤ) = rat_rint ((a : ℚ) / b) := by
  have hb0 : (0 : ℚ) < b := by exact_mod_cast hb
  unfold bankers_round rat_rint
  rw [floor_nat_div_q a b hb, fract_nat_div_q a b hb]
  have hlt_iff : ((a % b : Nat) : ℚ) / b < 1 / 2 ↔ 2 * (a % b) < b := by
    rw [div_lt_div_iff₀ hb0 (by norm_num : (0:ℚ) < 2)]
    rw [one_mul]
    constructor
    · intro h
      have hc : ((2 * (a % b) : Nat) : ℚ) < (b : ℚ) := by
        push_cast
        linarith
      exact_mod_cast hc
    · intro h
      have hc : ((2 * (a % b) : Nat) : ℚ) < (b : ℚ) := by exact_mod_cast h
      push_cast at hc
      linarith
  have hgt_iff : 1 / 2 < ((a % b : Nat) : ℚ) / b ↔ b < 2 * (a % b) := by
    rw [div_lt_div_iff₀ (by norm_num : (0:ℚ) < 2) hb0]
    rw [one_mul]
    constructor
    · intro h
      have hc : (b : ℚ) < ((2 * (a % b) : Nat) : ℚ) := by
        push_cast
        linarith
      exact_mod_cast hc
    · intro h
      have hc : (b : ℚ) < ((2 * (a % b) : Nat) : ℚ) := by exact_mod_cast h
      push_cast at hc
      linarith
  by_cases h1 : 2 * (a % b) < b
  · rw [if_pos h1, if_pos (hlt_iff.mpr h1)]
  · rw [if_neg h1, if_neg (fun hc => h1 (hlt_iff.mp hc))]
    by_cases h2 : b < 2 * (a % b)
    · rw [if_pos h2, if_pos (hgt_iff.mpr h2)]
      push_cast
      ring
    · rw [if_neg h2, if_neg (fun hc => h2 (hgt_iff.mp hc))]
      by_cases h3 : a / b % 2 = 0
      · rw [if_pos h3, if_pos (by omega : ((a / b : Nat) : ℤ) % 2 = 0)]
      · rw [if_neg h3, if_neg (by omega : ¬ ((a / b : Nat) : ℤ) % 2 = 0)]
        push_cast
        ring

/-- The hundredths-valued two-decimal rounding agrees with the
rational-number rounding of the scaled quotient. -/
theorem round2_hundredths_cast (num den : Nat) (hd : 0 < den) :
    ((round2_hundredths num den : Nat) : ℚ) =
      ((rat_rint ((num : ℚ) / den * 100) : ℤ) : ℚ) := by
  have h := bankers_round_eq_rat_rint (num * 100) den hd
  have harg : ((num * 100 : Nat) : ℚ) / den = (num : ℚ) / den * 100 := by
    push_cast
    rw [mul_div_right_comm]
  rw [round2_hundredths, ← harg]
  exact_mod_cast h

/-- The graders' pass flag holds exactly when the percent value (in
hundredths) reaches the minimum percent. -/
theorem pass_flag_iff (m ph : Nat) :
    ((if ph < m * 100 then false else true) = true ↔
      (m : ℚ) ≤ (ph : ℚ) / 100) := by
  rw [le_div_iff₀ (by norm_num : (0:ℚ) < 100)]
  constructor
  · intro hb
    by_cases hlt : ph < m * 100
    · rw [if_pos hlt] at hb
      cases hb
    · have hn := Nat.not_lt.mp hlt
      have hq : ((m * 100 : Nat) : ℚ) ≤ (ph : ℚ) := by exact_mod_cast hn
      push_cast at hq
      linarith
  · intro hle
    rw [if_neg]
    intro hlt
    have hle2 : m * 100 ≤ ph := by exact_mod_cast hle
    omega

/-! ## Claim theorems -/

/-- C1: the ordering-invariant check of `MergeFastq.__setup_merge_cmds`
is dead code.  The concrete Consolidate group `mg_group` has different
sorted `(flow_cell_id, lane_number)` key sequences for R1 and R2, yet
plan construction passes the check (returning the two sorted read-end
groups) instead of raising the ordering-invariant error; indeed no
input whatsoever can produce that error, because the code compares
`list(...)` of the two two-column frames, which are both the constant
column-label list. -/
theorem setup_merge_cmds_sort_order_check_is_dead :
    (sorted_fc_lane_keys mg_group 1 ≠ sorted_fc_lane_keys mg_group 2 ∧
      setup_merge_sort_check mg_group =
        .ok ([mg_row_r1_a, mg_row_r1_b], [mg_row_r2_a, mg_row_r2_c])) ∧
    ∀ recs, setup_merge_sort_check recs ≠
      .error "Merge-samples sort order was not maintained." := by
  refine ⟨⟨by decide, rfl⟩, ?_⟩
  intro recs h
  unfold setup_merge_sort_check at h
  split_ifs at h <;>
    first
      | exact absurd (Except.error.inj h) (by decide)
      | simp [pd_frame_to_list] at h

/-- C2: `MergeFastq.__update_df_read_counts` keys its count index by
sample name alone, so on a table whose R1 provider-count sum (100)
differs from its R2 sum (200) it raises no validation error and gives
the R1 row the R2 group's sum as its end-pair count, rather than the
R1 group's own sum. -/
theorem update_df_read_counts_misses_unequal_sums :
    group_sum [cnt_row_r1, cnt_row_r2] ("s1", 1) = 100 ∧
    group_sum [cnt_row_r1, cnt_row_r2] ("s1", 2) = 200 ∧
    update_df_read_counts [cnt_row_r1, cnt_row_r2] =
      .ok [(cnt_row_r1, 200, 400), (cnt_row_r2, 200, 400)] :=
  ⟨rfl, rfl, rfl⟩

/-- C6: read-end extraction from the FASTQ file name.  The uppercase
tags `_R1_` and `_R2_` resolve to read ends 1 and 2 and a name without
any tag raises the tag-is-None error, but a lowercase `_r1_` tag --
which the case-insensitive search does match -- is then rejected by the
case-sensitive `match` statement and raises instead of resolving to
read end 1. -/
theorem parse_read_number_lowercase_tag_raises :
    parse_read_number "LIB028751-DIL01_2235JKLT4_S210_L006_r1_001.fastq.gz" =
      .error "Read-pair number tag is not R1 or R2." ∧
    parse_read_number "LIB028751-DIL01_2235JKLT4_S210_L006_R1_001.fastq.gz" = .ok 1 ∧
    parse_read_number "LIB028751-DIL01_2235JKLT4_S210_L006_R2_001.fastq.gz" = .ok 2 ∧
    parse_read_number "LIB028751-DIL01.fastq.gz" =
      .error "Read-pair number tag is None." :=
  ⟨rfl, rfl, rfl, rfl⟩

/-- C10: `Samplemap.__type_samplemap_format` rejects any metadata file
whose base file name is not exactly `Samplemap.csv` with the file-name
error, whatever the file's column set -- the name check precedes every
content inspection. -/
theorem type_samplemap_format_requires_name (smap : String) (cols : List String)
    (h : ¬ file_base_name smap = "Samplemap.csv") :
    type_samplemap_format smap cols =
      .error "File name does not match Samplemap.csv format." := by
  unfold type_samplemap_format
  rw [if_pos h]

/-- Witness for C10: a file named `Samplemap2.csv`, with a column set
that matches no schema either, is rejected with the file-name error. -/
theorem type_samplemap_format_requires_name_witness :
    type_samplemap_format "run1/Samplemap2.csv" ["FASTQ"] =
      .error "File name does not match Samplemap.csv format." :=
  type_samplemap_format_requires_name "run1/Samplemap2.csv" ["FASTQ"] (by decide)

/-- C8: `Samplemap.__eval_cross_batch_sample_ids` succeeds exactly when
every sample id of the concatenated table lives in one batch: it raises
the cross-batch error precisely when two rows share a sample name but
carry different batch ids. -/
theorem eval_cross_batch_sample_ids_ok_iff (rows : List SmapRow) :
    eval_cross_batch_sample_ids rows = .ok () ↔
      ∀ r1 ∈ rows, ∀ r2 ∈ rows,
        r1.sample_name = r2.sample_name → r1.batch_id = r2.batch_id := by
  unfold eval_cross_batch_sample_ids
  rcases hfind : ((rows.map (·.sample_name)).dedup).find?
      (fun s => decide (1 < (batch_set rows s).length)) with _ | s
  · rw [hfind]
    have hnone := List.find?_eq_none.mp hfind
    constructor
    · intro _ r1 h1 r2 h2 hsn
      have hs : r1.sample_name ∈ (rows.map (·.sample_name)).dedup :=
        List.mem_dedup.mpr (List.mem_map_of_mem _ h1)
      have hle : (batch_set rows r1.sample_name).length ≤ 1 := by
        have := hnone _ hs
        simpa using this
      have hb1 : r1.batch_id ∈ batch_set rows r1.sample_name := by
        unfold batch_set
        exact List.mem_dedup.mpr
          (List.mem_map_of_mem _ (List.mem_filter.mpr ⟨h1, by simp⟩))
      have hb2 : r2.batch_id ∈ batch_set rows r1.sample_name := by
        unfold batch_set
        exact List.mem_dedup.mpr
          (List.mem_map_of_mem _ (List.mem_filter.mpr ⟨h2, by simp [hsn]⟩))
      exact list_eq_of_length_le_one hle hb1 hb2
    · intro _
      rfl
  · rw [hfind]
    constructor
    · intro he
      exact Except.noConfusion he
    · intro hP
      exfalso
      have hs := List.mem_of_find?_eq_some hfind
      have hpred := List.find?_some hfind
      have hlen : 1 < (batch_set rows s).length := by simpa using hpred
      have hnodup : (batch_set rows s).Nodup := List.nodup_dedup _
      obtain ⟨a, ha, b, hb, hab⟩ := exists_ne_of_one_lt_length_nodup hnodup hlen
      unfold batch_set at ha hb
      obtain ⟨r1, hr1, hr1a⟩ := List.mem_map.mp (List.mem_dedup.mp ha)
      obtain ⟨r2, hr2, hr2b⟩ := List.mem_map.mp (List.mem_dedup.mp hb)
      have h1 := List.mem_filter.mp hr1
      have h2 := List.mem_filter.mp hr2
      have hsn : r1.sample_name = r2.sample_name := by
        rw [of_decide_eq_true h1.2, of_decide_eq_true h2.2]
      have hbatch := hP r1 h1.1 r2 h2.1 hsn
      exact hab (by rw [← hr1a, ← hr2b, hbatch])

/-- C9: `Samplemap.__eval_compare_sample_ids` succeeds exactly when the
sample-id sets of the metadata table and of the rename map coincide; in
particular a rename-map id absent from the metadata aborts with the
mismatch error even when every metadata id is mapped. -/
theorem eval_compare_sample_ids_set_equality (smap_ids rename_ids : List String) :
    (eval_compare_sample_ids smap_ids rename_ids = .ok () ↔
      smap_ids.toFinset = rename_ids.toFinset) ∧
    ((∀ s ∈ smap_ids, s ∈ rename_ids) →
      (∃ r ∈ rename_ids, r ∉ smap_ids) →
      eval_compare_sample_ids smap_ids rename_ids =
        .error "Sample ids for Samplemap and RenameSamples classes do not match.") := by
  constructor
  · unfold eval_compare_sample_ids
    split_ifs with h
    · constructor
      · intro _
        exact h
      · intro _
        rfl
    · constructor
      · intro he
        cases he
      · intro heq
        exact absurd heq h
  · rintro hsub ⟨r, hr, hnr⟩
    unfold eval_compare_sample_ids
    rw [if_pos]
    intro heq
    have hmem : r ∈ smap_ids.toFinset := heq ▸ List.mem_toFinset.mpr hr
    exact hnr (List.mem_toFinset.mp hmem)

/-- Witness for C9: metadata holding the single sample `s1`, with a
rename map over `s1` and the never-seen `s9`, aborts with the mismatch
error although `s1` itself is mapped. -/
theorem eval_compare_sample_ids_set_equality_witness :
    eval_compare_sample_ids ["s1"] ["s1", "s9"] =
      .error "Sample ids for Samplemap and RenameSamples classes do not match." :=
  (eval_compare_sample_ids_set_equality ["s1"] ["s1", "s9"]).2
    (by decide) (by decide)

/-- C5: `MergeFastq.__parse_fastq_copy_types` on a nonempty table
classifies each sample into the copy set exactly when it has one flow
cell and two rows, and into the merge set otherwise; the two sets are
disjoint, their sizes sum to the number of distinct samples, and the
coverage check raises no error. -/
theorem parse_fastq_copy_types_partition (rows : List SmapRow) (h : rows ≠ []) :
    ∃ single merge,
      parse_fastq_copy_types rows = .ok (single, merge) ∧
      (∀ s, s ∈ single ↔ s ∈ (rows.map (·.sample_name)).dedup ∧
        (flow_cell_count rows s = 1 ∧ record_count rows s = 2)) ∧
      (∀ s, s ∈ merge ↔ s ∈ (rows.map (·.sample_name)).dedup ∧
        ¬ (flow_cell_count rows s = 1 ∧ record_count rows s = 2)) ∧
      (∀ s, ¬ (s ∈ single ∧ s ∈ merge)) ∧
      single.length + merge.length = ((rows.map (·.sample_name)).dedup).length := by
  have hdne : (rows.map (·.sample_name)).dedup ≠ [] := by
    intro hnil
    exact h (List.map_eq_nil_iff.mp
      ((List.dedup_eq_nil (rows.map (·.sample_name))).mp hnil))
  obtain ⟨n, ns, hcons⟩ := List.exists_cons_of_ne_nil hdne
  refine ⟨((rows.map (·.sample_name)).dedup).filter
      (fun s => decide (flow_cell_count rows s = 1 ∧ record_count rows s = 2)),
    ((rows.map (·.sample_name)).dedup).filter
      (fun s => ! decide (flow_cell_count rows s = 1 ∧ record_count rows s = 2)),
    ?_, ?_, ?_, ?_, ?_⟩
  · unfold parse_fastq_copy_types
    rw [hcons]
    simp only []
    rw [if_neg (not_not.mpr (List.length_eq_length_filter_add _).symm)]
  · intro s
    simp [List.mem_filter]
  · intro s
    simp only [List.mem_filter, Bool.not_eq_true', decide_eq_false_iff_not]
  · intro s
    rintro ⟨h1, h2⟩
    rw [List.mem_filter] at h1 h2
    rw [h1.2] at h2
    exact Bool.noConfusion h2.2
  · exact (List.length_eq_length_filter_add _).symm

/-- Witness for C5: a two-row single-flow-cell table yields the copy
set holding its one sample and an empty merge set, with no error. -/
theorem parse_fastq_copy_types_partition_witness :
    ∃ single merge,
      parse_fastq_copy_types [cnt_row_r1, cnt_row_r2] = .ok (single, merge) ∧
      (∀ s, s ∈ single ↔
        s ∈ ([cnt_row_r1, cnt_row_r2].map (·.sample_name)).dedup ∧
        (flow_cell_count [cnt_row_r1, cnt_row_r2] s = 1 ∧
          record_count [cnt_row_r1, cnt_row_r2] s = 2)) ∧
      (∀ s, s ∈ merge ↔
        s ∈ ([cnt_row_r1, cnt_row_r2].map (·.sample_name)).dedup ∧
        ¬ (flow_cell_count [cnt_row_r1, cnt_row_r2] s = 1 ∧
          record_count [cnt_row_r1, cnt_row_r2] s = 2)) ∧
      (∀ s, ¬ (s ∈ single ∧ s ∈ merge)) ∧
      single.length + merge.length =
        (([cnt_row_r1, cnt_row_r2].map (·.sample_name)).dedup).length :=
  parse_fastq_copy_types_partition [cnt_row_r1, cnt_row_r2] (by decide)

/-- C7: `RenameSamples.__populate_df` rejects an empty rename table,
rejects a duplicated original id with the original-id uniqueness error,
rejects a duplicated revised id with one of the two uniqueness errors
(the original-id one fires first when both columns are bad), and
accepts any nonempty table whose two id columns are duplicate-free. -/
theorem rename_populate_df_validation (rows : List RenameRow) :
    (rows = [] → populate_df rows = .error "Input file contains no values.") ∧
    (¬ (rows.map (·.samplemap_sample_id)).Nodup →
      populate_df rows =
        .error "The samplemap_sample_id column values are not unique.") ∧
    (¬ (rows.map (·.revised_sample_id)).Nodup →
      populate_df rows =
        .error "The samplemap_sample_id column values are not unique." ∨
      populate_df rows =
        .error "The revised_sample_id column values are not unique.") ∧
    ((rows.map (·.samplemap_sample_id)).Nodup →
      (rows.map (·.revised_sample_id)).Nodup →
      rows ≠ [] → populate_df rows = .ok rows) := by
  have part2 : ¬ (rows.map (·.samplemap_sample_id)).Nodup →
      populate_df rows =
        .error "The samplemap_sample_id column values are not unique." := by
    intro hdup
    have hne : ¬ rows.length = 0 := by
      intro hzero
      exact hdup (by simp [List.length_eq_zero.mp hzero])
    unfold populate_df
    rw [if_neg hne, if_pos]
    intro heq
    exact hdup (dedup_length_eq_iff.mp heq.symm)
  refine ⟨?_, part2, ?_, ?_⟩
  · intro hnil
    rw [hnil]
    rfl
  · intro hdup
    by_cases hA : (rows.map (·.samplemap_sample_id)).Nodup
    · right
      have hne : ¬ rows.length = 0 := by
        intro hzero
        exact hdup (by simp [List.length_eq_zero.mp hzero])
      unfold populate_df
      rw [if_neg hne, if_neg (not_not.mpr (dedup_length_eq_iff.mpr hA).symm),
        if_pos]
      intro heq
      exact hdup (dedup_length_eq_iff.mp heq.symm)
    · left
      exact part2 hA
  · intro hA hB hne
    have hlen : ¬ rows.length = 0 := by
      intro hzero
      exact hne (List.length_eq_zero.mp hzero)
    unfold populate_df
    rw [if_neg hlen,
      if_neg (not_not.mpr (dedup_length_eq_iff.mpr hA).symm),
      if_neg (not_not.mpr (dedup_length_eq_iff.mpr hB).symm),
      if_neg, if_neg]
    · rw [List.any_eq_true]
      rintro ⟨k, _, hpk⟩
      have hgt := of_decide_eq_true hpk
      have hle := length_filter_le_one_of_nodup_map
        (fun r : RenameRow => r.revised_sample_id) hB k
      omega
    · rw [List.any_eq_true]
      rintro ⟨k, _, hpk⟩
      have hgt := of_decide_eq_true hpk
      have hle := length_filter_le_one_of_nodup_map
        (fun r : RenameRow => r.samplemap_sample_id) hA k
      omega

/-- Witness for C7: the duplicated-original-id table of Scenario C is
rejected with the original-id uniqueness error. -/
theorem rename_populate_df_validation_witness :
    populate_df rename_dup_rows =
      .error "The samplemap_sample_id column values are not unique." :=
  (rename_populate_df_validation rename_dup_rows).2.1 (by decide)

/-- Counterexample for C4: on a row pair whose sample-level counts
agree (10 = 10) while the R2 counts differ (7 versus 8), the comparison
aborts with the column-length error instead of producing the report row
the claim describes (blank sample field, marked R2 field): the blank
branch of the sample-count column tests the R2 comparison and appends
nothing here. -/
theorem compare_counts_sample_equal_r2_differs_aborts :
    compare_gtac_to_src_counts [pair_sample_eq_r2_ne] =
      .error "Read count columns vary in length." := rfl

/-- C4 (amended): on table pairs in which every row with agreeing
sample counts also agrees on R2 -- as any internally consistent pair of
grade tables does -- the comparison produces one report row per sample,
each count field holding the provider:source marker exactly when the
tables disagree on it and blank otherwise, and `is_no_difference`
exactly when all three agree. -/
theorem compare_gtac_to_src_counts_report_spec
    (pairs : List (CountsRow × CountsRow))
    (h : ∀ p ∈ pairs, p.1.sample_read_counts = p.2.sample_read_counts →
      p.1.R2_read_counts = p.2.R2_read_counts) :
    compare_gtac_to_src_counts pairs = .ok (pairs.map spec_comp_row) := by
  unfold compare_gtac_to_src_counts
  rw [col_sample_read_counts_eq_map pairs h]
  rw [if_neg (not_not.mpr
    ⟨by simp [col_r1_read_counts],
      by simp [col_r1_read_counts, col_r2_read_counts],
      by simp [col_r2_read_counts],
      by simp [col_is_no_difference]⟩)]
  unfold col_r1_read_counts col_r2_read_counts col_is_no_difference
  rw [mk_comp_rows_map]
  refine congrArg _ (List.map_congr_left ?_)
  intro p _
  unfold spec_comp_row
  by_cases h1 : p.1.R1_read_counts = p.2.R1_read_counts <;>
    by_cases h2 : p.1.R2_read_counts = p.2.R2_read_counts <;>
      simp [h1, h2]

/-- Witness for C4: Scenario D, provider sample count 1,000,000 against
recount 998,000 (R1/R2 halves likewise apart), yields the single report
row with all three fields marked and `is_no_difference = false`. -/
theorem compare_gtac_to_src_counts_report_spec_witness :
    compare_gtac_to_src_counts [pair_scenario_d] =
      .ok [⟨"S1", some "500000:499000", some "500000:499000",
        some "1000000:998000", false⟩] := by
  rw [compare_gtac_to_src_counts_report_spec [pair_scenario_d] (by decide)]
  rfl

/-- Counterexample for C3: at target threshold 40,000,000 (ladder index
17) with sample count 36,000,000 and minimum percent 80, the
recount-based grader emits percent 45.00 (in hundredths: 4500) and a
failing pass flag, whereas the claim's formula
`round((sample_count / threshold) * 100, 2)` -- which the
provider-count grader does follow -- yields 90.0 with a passing flag. -/
theorem src_read_coverage_percent_counterexample :
    (src_target_cols 36000000 80).get? 17 = some (40000000, 4500, false) ∧
    (gtac_target_cols 36000000 80).get? 17 = some (40000000, 9000, true) ∧
    rat_round2 (((36000000 : ℚ) / 40000000) * 100) = 90 ∧
    ((4500 : ℚ) / 100 = 45 ∧ ¬ (45 : ℚ) = 90) := by
  refine ⟨by decide, by decide, ?_, by norm_num, by norm_num⟩
  have harg : ((36000000 : ℚ) / 40000000) * 100 * 100 = ((9000 : ℤ) : ℚ) := by
    norm_num
  rw [rat_round2, harg]
  rw [show rat_rint ((9000 : ℤ) : ℚ) = 9000 by
    rw [rat_rint]
    rw [Int.fract_intCast]
    rw [if_pos (by norm_num : (0 : ℚ) < 1 / 2)]
    exact Int.floor_intCast 9000]
  norm_num

/-- C3 (amended): for every sample count, minimum percent, and ladder
entry, the provider-count grader's percent equals
`round((sample_count / threshold) * 100, 2)` while the recount-based
grader's percent equals
`round(((sample_count / 2) / threshold) * 100, 2)` (its documented
formula), and each grader's pass flag holds exactly when its percent
reaches the minimum. -/
theorem read_coverage_percent_formulas (s m j t : Nat)
    (hj : target_counts.get? j = some t) :
    ∃ pg bg ps bs,
      (gtac_target_cols s m).get? j = some (t, pg, bg) ∧
      (pg : ℚ) / 100 = rat_round2 (((s : ℚ) / t) * 100) ∧
      (bg = true ↔ (m : ℚ) ≤ (pg : ℚ) / 100) ∧
      (src_target_cols s m).get? j = some (t, ps, bs) ∧
      (ps : ℚ) / 100 = rat_round2 ((((s : ℚ) / 2) / t) * 100) ∧
      (bs = true ↔ (m : ℚ) ≤ (ps : ℚ) / 100) := by
  have ht : 0 < t := (by decide : ∀ x ∈ target_counts, 0 < x) t (List.get?_mem hj)
  have h2t : 0 < 2 * t := by omega
  refine ⟨round2_hundredths (s * 100) t,
    if round2_hundredths (s * 100) t < m * 100 then false else true,
    round2_hundredths (s * 100) (2 * t),
    if round2_hundredths (s * 100) (2 * t) < m * 100 then false else true,
    ?_, ?_, pass_flag_iff m _, ?_, ?_, pass_flag_iff m _⟩
  · unfold gtac_target_cols
    rw [List.get?_map, hj]
    rfl
  · rw [rat_round2, round2_hundredths_cast (s * 100) t ht]
    congr 2
    push_cast
    rw [mul_div_right_comm]
  · unfold src_target_cols
    rw [List.get?_map, hj]
    rfl
  · rw [rat_round2, round2_hundredths_cast (s * 100) (2 * t) h2t]
    congr 2
    rw [div_div]
    push_cast
    rw [mul_div_right_comm]

/-- Witness for C3 (amended): Scenario E's numbers, threshold
40,000,000 (index 17), sample count 36,000,000, minimum percent 80. -/
theorem read_coverage_percent_formulas_witness :
    ∃ pg bg ps bs,
      (gtac_target_cols 36000000 80).get? 17 = some (40000000, pg, bg) ∧
      (pg : ℚ) / 100 = rat_round2 (((36000000 : ℚ) / 40000000) * 100) ∧
      (bg = true ↔ (80 : ℚ) ≤ (pg : ℚ) / 100) ∧
      (src_target_cols 36000000 80).get? 17 = some (40000000, ps, bs) ∧
      (ps : ℚ) / 100 = rat_round2 ((((36000000 : ℚ) / 2) / 40000000) * 100) ∧
      (bs = true ↔ (80 : ℚ) ≤ (ps : ℚ) / 100) := by
  have h := read_coverage_percent_formulas 36000000 80 17 40000000 rfl
  simpa using h

end Mergefastq
